import Mathlib

/-!
Verification of the password-hashing core of `src/services/hash.ts`
(DID25_HashPwdWithSalt).

The service is shallowly embedded as follows.

* Algorithm tags are plain strings: at runtime the TypeScript union type
  `HashAlgorithm = 'MD5' | 'SHA-1' | 'SHA-256' | 'SHA-512' | 'bcrypt'` is just
  a string, and both `hashPassword` and `verifyPassword` branch on the string,
  with a default arm throwing on any other value.
* Thrown errors become `Except String`; `throw new Error(msg)` is
  `Except.error msg`.
* The random source behind `crypto.getRandomValues(array)` is passed in
  explicitly: `generateSalt` receives the list of bytes the source wrote into
  the freshly allocated `Uint8Array`.
* The digest primitives behind `crypto.subtle.digest('SHA-1' | 'SHA-256' |
  'SHA-512', …)` are implemented bit-for-bit (FIPS 180-4) over `Nat`, with
  words reduced modulo `2 ^ 32` / `2 ^ 64`; golden-vector theorems below pin
  them to the standard test vectors.  Note that `hashMD5` in the source calls
  `crypto.subtle.digest('SHA-256', …)` — the Web Crypto API has no MD5 — so
  its embedding uses the SHA-256 primitive, exactly as the code does.
* The external `bcryptjs` library is an opaque parameter: `bcrypt.hash` and
  `bcrypt.compare` are taken as function arguments, so every theorem about the
  bcrypt branch holds for an arbitrary implementation of the library.
* `new TextEncoder().encode(s)` is UTF-8 encoding of the string.
-/

namespace HashSvc

/-! ### Generic byte-level helpers -/

/-- Split a list into consecutive chunks of `n` elements, with explicit fuel
so that the recursion is structural (and hence reduces inside `decide`). -/
def chunksGo {α : Type} (n : Nat) : Nat → List α → List (List α)
  | 0, _ => []
  | _, [] => []
  | fuel + 1, l => l.take n :: chunksGo n fuel (l.drop n)

/-- Split a list into consecutive chunks of `n` elements (for `n > 0`). -/
def chunks {α : Type} (n : Nat) (l : List α) : List (List α) :=
  chunksGo n l.length l

/-- Big-endian byte decomposition: the `n` low-order bytes of `v`, most
significant first. -/
def beBytes : Nat → Nat → List Nat
  | 0, _ => []
  | n + 1, v => beBytes n (v / 256) ++ [v % 256]

/-- Read a big-endian byte list as a natural number. -/
def beWord (bytes : List Nat) : Nat :=
  bytes.foldl (fun acc b => acc * 256 + b) 0

/-- Merkle–Damgård padding shared by the SHA family: append `0x80`, zero-fill,
then the message bit length as a `lenBytes`-byte big-endian integer, so the
total length is a multiple of `blockSize` bytes. -/
def padMessage (msg : List Nat) (blockSize lenBytes : Nat) : List Nat :=
  let zeros := (blockSize - (msg.length + 1 + lenBytes) % blockSize) % blockSize
  msg ++ [0x80] ++ List.replicate zeros 0 ++ beBytes lenBytes (8 * msg.length)

/-! ### SHA-256 (FIPS 180-4), the primitive behind
`crypto.subtle.digest('SHA-256', …)` -/

/-- Rotate a 32-bit word right by `n` bits. -/
def rotr32 (x n : Nat) : Nat := ((x >>> n) ||| (x <<< (32 - n))) % 2 ^ 32

/-- SHA-256 initial hash value: the 32 fractional bits of the square roots of
the first 8 primes (FIPS 180-4 §5.3.3). -/
def sha256IV : List Nat :=
  [1779033703, 3144134277, 1013904242, 2773480762, 1359893119, 2600822924,
    528734635, 1541459225]

/-- SHA-256 round constants: the 32 fractional bits of the cube roots of the
first 64 primes (FIPS 180-4 §4.2.2). -/
def sha256K : List Nat :=
  [1116352408, 1899447441, 3049323471, 3921009573, 961987163, 1508970993,
    2453635748, 2870763221, 3624381080, 310598401, 607225278, 1426881987,
    1925078388, 2162078206, 2614888103, 3248222580, 3835390401, 4022224774,
    264347078, 604807628, 770255983, 1249150122, 1555081692, 1996064986,
    2554220882, 2821834349, 2952996808, 3210313671, 3336571891, 3584528711,
    113926993, 338241895, 666307205, 773529912, 1294757372, 1396182291,
    1695183700, 1986661051, 2177026350, 2456956037, 2730485921, 2820302411,
    3259730800, 3345764771, 3516065817, 3600352804, 4094571909, 275423344,
    430227734, 506948616, 659060556, 883997877, 958139571, 1322822218,
    1537002063, 1747873779, 1955562222, 2024104815, 2227730452, 2361852424,
    2428436474, 2756734187, 3204031479, 3329325298]

/-- SHA-256 message-schedule sigma 0. -/
def ssig0 (x : Nat) : Nat := rotr32 x 7 ^^^ rotr32 x 18 ^^^ (x >>> 3)

/-- SHA-256 message-schedule sigma 1. -/
def ssig1 (x : Nat) : Nat := rotr32 x 17 ^^^ rotr32 x 19 ^^^ (x >>> 10)

/-- SHA-256 compression Sigma 0. -/
def bsig0 (x : Nat) : Nat := rotr32 x 2 ^^^ rotr32 x 13 ^^^ rotr32 x 22

/-- SHA-256 compression Sigma 1. -/
def bsig1 (x : Nat) : Nat := rotr32 x 6 ^^^ rotr32 x 11 ^^^ rotr32 x 25

/-- Extend the 16 block words by `count` further schedule words. -/
def sha256Extend (w : List Nat) : Nat → List Nat
  | 0 => w
  | count + 1 =>
    let n := w.length
    let next := (w.getD (n - 16) 0 + ssig0 (w.getD (n - 15) 0)
        + w.getD (n - 7) 0 + ssig1 (w.getD (n - 2) 0)) % 2 ^ 32
    sha256Extend (w ++ [next]) count

/-- One SHA-256 compression round; the state is the 8-word list `[a..h]`. -/
def sha256Round (st : List Nat) (kw : Nat × Nat) : List Nat :=
  match st with
  | [a, b, c, d, e, f, g, h] =>
    let ch := (e &&& f) ^^^ ((e ^^^ (2 ^ 32 - 1)) &&& g)
    let maj := (a &&& b) ^^^ (a &&& c) ^^^ (b &&& c)
    let t1 := (h + bsig1 e + ch + kw.1 + kw.2) % 2 ^ 32
    let t2 := (bsig0 a + maj) % 2 ^ 32
    [(t1 + t2) % 2 ^ 32, a, b, c, (d + t1) % 2 ^ 32, e, f, g]
  | _ => st

/-- Process one 16-word block, updating the 8-word state. -/
def sha256Block (state block : List Nat) : List Nat :=
  let w := sha256Extend block 48
  let st := (sha256K.zip w).foldl sha256Round state
  (state.zip st).map (fun p => (p.1 + p.2) % 2 ^ 32)

/-- SHA-256 digest of a byte list, as the 32 digest bytes. -/
def sha256Digest (msg : List Nat) : List Nat :=
  let words := (chunks 4 (padMessage msg 64 8)).map beWord
  let final := (chunks 16 words).foldl sha256Block sha256IV
  final.flatMap (beBytes 4)

/-! ### SHA-1 (FIPS 180-4), the primitive behind
`crypto.subtle.digest('SHA-1', …)` -/

/-- Rotate a 32-bit word left by `n` bits. -/
def rotl32 (x n : Nat) : Nat := ((x <<< n) ||| (x >>> (32 - n))) % 2 ^ 32

/-- SHA-1 initial hash value (FIPS 180-4 §5.3.1). -/
def sha1IV : List Nat :=
  [0x67452301, 0xEFCDAB89, 0x98BADCFE, 0x10325476, 0xC3D2E1F0]

/-- SHA-1 round constant for round `t` (FIPS 180-4 §4.2.1). -/
def sha1K (t : Nat) : Nat :=
  if t < 20 then 0x5A827999
  else if t < 40 then 0x6ED9EBA1
  else if t < 60 then 0x8F1BBCDC
  else 0xCA62C1D6

/-- SHA-1 round function `f_t(b, c, d)` (FIPS 180-4 §4.1.1). -/
def sha1F (t b c d : Nat) : Nat :=
  if t < 20 then (b &&& c) ^^^ ((b ^^^ (2 ^ 32 - 1)) &&& d)
  else if t < 40 then b ^^^ c ^^^ d
  else if t < 60 then (b &&& c) ^^^ (b &&& d) ^^^ (c &&& d)
  else b ^^^ c ^^^ d

/-- Extend the 16 block words by `count` further SHA-1 schedule words. -/
def sha1Extend (w : List Nat) : Nat → List Nat
  | 0 => w
  | count + 1 =>
    let n := w.length
    let next := rotl32 (w.getD (n - 3) 0 ^^^ w.getD (n - 8) 0
        ^^^ w.getD (n - 14) 0 ^^^ w.getD (n - 16) 0) 1
    sha1Extend (w ++ [next]) count

/-- One SHA-1 compression round; the state is the 5-word list `[a..e]`. -/
def sha1Round (st : List Nat) (tw : Nat × Nat) : List Nat :=
  match st with
  | [a, b, c, d, e] =>
    let t := (rotl32 a 5 + sha1F tw.1 b c d + e + sha1K tw.1 + tw.2) % 2 ^ 32
    [t, a, rotl32 b 30, c, d]
  | _ => st

/-- Process one 16-word block, updating the 5-word SHA-1 state. -/
def sha1Block (state block : List Nat) : List Nat :=
  let w := sha1Extend block 64
  let st := ((List.range 80).zip w).foldl sha1Round state
  (state.zip st).map (fun p => (p.1 + p.2) % 2 ^ 32)

/-- SHA-1 digest of a byte list, as the 20 digest bytes. -/
def sha1Digest (msg : List Nat) : List Nat :=
  let words := (chunks 4 (padMessage msg 64 8)).map beWord
  let final := (chunks 16 words).foldl sha1Block sha1IV
  final.flatMap (beBytes 4)

/-! ### SHA-512 (FIPS 180-4), the primitive behind
`crypto.subtle.digest('SHA-512', …)` -/

/-- Rotate a 64-bit word right by `n` bits. -/
def rotr64 (x n : Nat) : Nat := ((x >>> n) ||| (x <<< (64 - n))) % 2 ^ 64

/-- SHA-512 initial hash value: the 64 fractional bits of the square roots of
the first 8 primes (FIPS 180-4 §5.3.5). -/
def sha512IV : List Nat :=
  [7640891576956012808, 13503953896175478587, 4354685564936845355,
    11912009170470909681, 5840696475078001361, 11170449401992604703,
    2270897969802886507, 6620516959819538809]

/-- SHA-512 round constants: the 64 fractional bits of the cube roots of the
first 80 primes (FIPS 180-4 §4.2.3). -/
def sha512K : List Nat :=
  [4794697086780616226, 8158064640168781261, 13096744586834688815,
    16840607885511220156, 4131703408338449720, 6480981068601479193,
    10538285296894168987, 12329834152419229976, 15566598209576043074,
    1334009975649890238, 2608012711638119052, 6128411473006802146,
    8268148722764581231, 9286055187155687089, 11230858885718282805,
    13951009754708518548, 16472876342353939154, 17275323862435702243,
    1135362057144423861, 2597628984639134821, 3308224258029322869,
    5365058923640841347, 6679025012923562964, 8573033837759648693,
    10970295158949994411, 12119686244451234320, 12683024718118986047,
    13788192230050041572, 14330467153632333762, 15395433587784984357,
    489312712824947311, 1452737877330783856, 2861767655752347644,
    3322285676063803686, 5560940570517711597, 5996557281743188959,
    7280758554555802590, 8532644243296465576, 9350256976987008742,
    10552545826968843579, 11727347734174303076, 12113106623233404929,
    14000437183269869457, 14369950271660146224, 15101387698204529176,
    15463397548674623760, 17586052441742319658, 1182934255886127544,
    1847814050463011016, 2177327727835720531, 2830643537854262169,
    3796741975233480872, 4115178125766777443, 5681478168544905931,
    6601373596472566643, 7507060721942968483, 8399075790359081724,
    8693463985226723168, 9568029438360202098, 10144078919501101548,
    10430055236837252648, 11840083180663258601, 13761210420658862357,
    14299343276471374635, 14566680578165727644, 15097957966210449927,
    16922976911328602910, 17689382322260857208, 500013540394364858,
    748580250866718886, 1242879168328830382, 1977374033974150939,
    2944078676154940804, 3659926193048069267, 4368137639120453308,
    4836135668995329356, 5532061633213252278, 6448918945643986474,
    6902733635092675308, 7801388544844847127]

/-- SHA-512 message-schedule sigma 0. -/
def ssig0w (x : Nat) : Nat := rotr64 x 1 ^^^ rotr64 x 8 ^^^ (x >>> 7)

/-- SHA-512 message-schedule sigma 1. -/
def ssig1w (x : Nat) : Nat := rotr64 x 19 ^^^ rotr64 x 61 ^^^ (x >>> 6)

/-- SHA-512 compression Sigma 0. -/
def bsig0w (x : Nat) : Nat := rotr64 x 28 ^^^ rotr64 x 34 ^^^ rotr64 x 39

/-- SHA-512 compression Sigma 1. -/
def bsig1w (x : Nat) : Nat := rotr64 x 14 ^^^ rotr64 x 18 ^^^ rotr64 x 41

/-- Extend the 16 block words by `count` further SHA-512 schedule words. -/
def sha512Extend (w : List Nat) : Nat → List Nat
  | 0 => w
  | count + 1 =>
    let n := w.length
    let next := (w.getD (n - 16) 0 + ssig0w (w.getD (n - 15) 0)
        + w.getD (n - 7) 0 + ssig1w (w.getD (n - 2) 0)) % 2 ^ 64
    sha512Extend (w ++ [next]) count

/-- One SHA-512 compression round; the state is the 8-word list `[a..h]`. -/
def sha512Round (st : List Nat) (kw : Nat × Nat) : List Nat :=
  match st with
  | [a, b, c, d, e, f, g, h] =>
    let ch := (e &&& f) ^^^ ((e ^^^ (2 ^ 64 - 1)) &&& g)
    let maj := (a &&& b) ^^^ (a &&& c) ^^^ (b &&& c)
    let t1 := (h + bsig1w e + ch + kw.1 + kw.2) % 2 ^ 64
    let t2 := (bsig0w a + maj) % 2 ^ 64
    [(t1 + t2) % 2 ^ 64, a, b, c, (d + t1) % 2 ^ 64, e, f, g]
  | _ => st

/-- Process one 16-word block, updating the 8-word SHA-512 state. -/
def sha512Block (state block : List Nat) : List Nat :=
  let w := sha512Extend block 64
  let st := (sha512K.zip w).foldl sha512Round state
  (state.zip st).map (fun p => (p.1 + p.2) % 2 ^ 64)

/-- SHA-512 digest of a byte list, as the 64 digest bytes. -/
def sha512Digest (msg : List Nat) : List Nat :=
  let words := (chunks 8 (padMessage msg 128 16)).map beWord
  let final := (chunks 16 words).foldl sha512Block sha512IV
  final.flatMap (beBytes 8)

/-! ### String encodings -/

/-- UTF-8 encoding of one Unicode scalar value. -/
def utf8EncodeChar (c : Nat) : List Nat :=
  if c < 0x80 then [c]
  else if c < 0x800 then [0xC0 ||| (c >>> 6), 0x80 ||| (c &&& 0x3F)]
  else if c < 0x10000 then
    [0xE0 ||| (c >>> 12), 0x80 ||| ((c >>> 6) &&& 0x3F), 0x80 ||| (c &&& 0x3F)]
  else
    [0xF0 ||| (c >>> 18), 0x80 ||| ((c >>> 12) &&& 0x3F),
      0x80 ||| ((c >>> 6) &&& 0x3F), 0x80 ||| (c &&& 0x3F)]

/-- The UTF-8 byte sequence of a string: `new TextEncoder().encode(s)`. -/
def utf8Encode (s : String) : List Nat :=
  s.data.flatMap (fun c => utf8EncodeChar c.toNat)

/-- Lowercase hexadecimal digit character for `n < 16`. -/
def hexDigitChar (n : Nat) : Char :=
  if n < 10 then Char.ofNat (48 + n) else Char.ofNat (87 + n)

/-- `byte.toString(16).padStart(2, '0')`: one byte as two lowercase hex
digits. -/
def byteToHex (b : Nat) : String :=
  String.mk [hexDigitChar (b / 16), hexDigitChar (b % 16)]

/-- `bytes.map(b => b.toString(16).padStart(2, '0')).join('')`: a byte list as
a lowercase hex string, in byte order. -/
def bytesToHex (bytes : List Nat) : String :=
  String.join (bytes.map byteToHex)

/-! ### The embedded service (`src/services/hash.ts`) -/

/-- `HashResult` (hash.ts lines 20–24): the record returned by
`hashPassword`.  The `algorithm` field is the runtime string of the
`HashAlgorithm` union. -/
structure HashResult where
  hashedPassword : String
  salt : String
  algorithm : String
deriving Repr, DecidableEq

/-- `generateSalt` (hash.ts lines 36–41): hex-encodes, in byte order, the
bytes that `crypto.getRandomValues` wrote into the freshly allocated
`Uint8Array(length)`; `array` is that byte list (so `array.length` is the
`length` parameter, default 32). -/
def generateSalt (array : List Nat) : String :=
  String.join (array.map byteToHex)

/-- `hashMD5` (hash.ts lines 53–60): despite the name, the source computes
`crypto.subtle.digest('SHA-256', …)` over the UTF-8 bytes of
`password + salt`, because the Web Crypto API does not support MD5. -/
def hashMD5 (password salt : String) : String :=
  bytesToHex (sha256Digest (utf8Encode (password ++ salt)))

/-- `hashSHA1` (hash.ts lines 72–77): SHA-1 over the UTF-8 bytes of
`password + salt`, hex-encoded. -/
def hashSHA1 (password salt : String) : String :=
  bytesToHex (sha1Digest (utf8Encode (password ++ salt)))

/-- `hashSHA256` (hash.ts lines 89–94): SHA-256 over the UTF-8 bytes of
`password + salt`, hex-encoded. -/
def hashSHA256 (password salt : String) : String :=
  bytesToHex (sha256Digest (utf8Encode (password ++ salt)))

/-- `hashSHA512` (hash.ts lines 106–111): SHA-512 over the UTF-8 bytes of
`password + salt`, hex-encoded. -/
def hashSHA512 (password salt : String) : String :=
  bytesToHex (sha512Digest (utf8Encode (password ++ salt)))

/-- `hashBcrypt` (hash.ts lines 126–131): `bcrypt.hash(password, 10)` with
the external `bcryptjs` library passed in as `bcryptHash` (its randomness is
folded into the function argument). -/
def hashBcrypt (bcryptHash : String → Nat → String) (password : String) : String :=
  bcryptHash password 10

/-- `hashPassword` (hash.ts lines 142–182).  `bcryptHash` models
`bcrypt.hash` of the external library; `randomBytes` models the bytes the
secure random source supplies to the one `generateSalt()` call. -/
def hashPassword (bcryptHash : String → Nat → String) (randomBytes : List Nat)
    (password algorithm : String) : Except String HashResult :=
  if algorithm == "bcrypt" then
    Except.ok ⟨hashBcrypt bcryptHash password, "", algorithm⟩
  else
    let salt := generateSalt randomBytes
    do
      let hashedPassword ←
        if algorithm == "MD5" then Except.ok (hashMD5 password salt)
        else if algorithm == "SHA-1" then Except.ok (hashSHA1 password salt)
        else if algorithm == "SHA-256" then Except.ok (hashSHA256 password salt)
        else if algorithm == "SHA-512" then Except.ok (hashSHA512 password salt)
        else Except.error ("Unsupported algorithm: " ++ algorithm)
      Except.ok ⟨hashedPassword, salt, algorithm⟩

/-- `verifyPassword` (hash.ts lines 195–229).  `bcryptCompare` models
`bcrypt.compare` of the external library. -/
def verifyPassword (bcryptCompare : String → String → Bool)
    (password storedHash salt algorithm : String) : Except String Bool :=
  if algorithm == "bcrypt" then
    Except.ok (bcryptCompare password storedHash)
  else do
    let newHash ←
      if algorithm == "MD5" then Except.ok (hashMD5 password salt)
      else if algorithm == "SHA-1" then Except.ok (hashSHA1 password salt)
      else if algorithm == "SHA-256" then Except.ok (hashSHA256 password salt)
      else if algorithm == "SHA-512" then Except.ok (hashSHA512 password salt)
      else Except.error ("Unsupported algorithm: " ++ algorithm)
    Except.ok (newHash == storedHash)

/-! ### Spec-side vocabulary used by the claim statements -/

/-- The non-self-salting algorithm tags (spec §3: every tag except
`bcrypt`). -/
def nonSelfSalting : List String := ["MD5", "SHA-1", "SHA-256", "SHA-512"]

/-- All five supported algorithm tags (spec §3). -/
def supportedAlgorithms : List String :=
  ["MD5", "SHA-1", "SHA-256", "SHA-512", "bcrypt"]

/-- Spec-side description of the digest primitive each non-self-salting tag
names, following the spec's words: SHA-1 and SHA-512 for their tags, and
SHA-256 both for its own tag and for the `MD5` tag (spec §4.2: "the digest
actually computed for this tag is SHA-256").  Declared separately from the
embedded service so the claims can compare the two. -/
def specDigest (algorithm : String) : List Nat → List Nat :=
  if algorithm == "SHA-1" then sha1Digest
  else if algorithm == "SHA-512" then sha512Digest
  else sha256Digest

/-- Spec-side recomputation (spec §4.2 Verify): the lowercase-hex encoding of
the tag's digest over the UTF-8 bytes of `password` concatenated with
`salt`, in that order. -/
def specHexDigest (algorithm password salt : String) : String :=
  bytesToHex (specDigest algorithm (utf8Encode (password ++ salt)))

/-- A placeholder `bcrypt.hash` used to instantiate universally quantified
theorems at concrete inputs: it returns the plaintext unchanged, tagged with
the cost. -/
def bcryptHashW (password : String) (cost : Nat) : String :=
  toString cost ++ "$" ++ password

/-- The `bcrypt.compare` matching `bcryptHashW`: recompute and compare. -/
def bcryptCompareW (password encoded : String) : Bool :=
  bcryptHashW password 10 == encoded

/-- The concrete record `hashPassword` produces for password `"pw"` under the
`MD5` tag when the random source supplies the single byte `0`. -/
def sampleRecordMD5 : HashResult :=
  ⟨hashMD5 "pw" (generateSalt [0]), generateSalt [0], "MD5"⟩

/-- The concrete record `hashPassword` produces for password `"pw"` under the
`SHA-256` tag when the random source supplies the single byte `0`. -/
def sampleRecordSHA256 : HashResult :=
  ⟨hashSHA256 "pw" (generateSalt [0]), generateSalt [0], "SHA-256"⟩

/-- The spec's fixed golden-test password (spec §8). -/
def goldenPassword : String := "correcthorsebatterystaple1"

/-- The spec's fixed golden-test salt: `"00" * 32`, i.e. 64 zero
characters (spec §8). -/
def goldenSalt : String :=
  String.mk (List.replicate 64 '0')

/-! ### Golden vectors pinning the digest primitives

These anchor the `Nat`-level SHA implementations (including the literal
constant tables) to the published FIPS 180-4 test vectors, and pin the UTF-8
encoder on a multi-byte input.  Each expected string was computed with an
independent reference implementation. -/

set_option maxRecDepth 8000 in
/-- FIPS 180-4 test vector: SHA-1 of `"abc"`. -/
theorem sha1_golden_abc :
    hashSHA1 "abc" "" = "a9993e364706816aba3e25717850c26c9cd0d89d" := by
  decide

set_option maxRecDepth 8000 in
/-- FIPS 180-4 test vector: SHA-256 of `"abc"`. -/
theorem sha256_golden_abc :
    hashSHA256 "abc" ""
      = "ba7816bf8f01cfea414140de5dae2223b00361a396177a9cb410ff61f20015ad" := by
  decide

set_option maxRecDepth 8000 in
/-- FIPS 180-4 test vector: SHA-512 of `"abc"`. -/
theorem sha512_golden_abc :
    hashSHA512 "abc" ""
      = "ddaf35a193617abacc417349ae20413112e6fa4e89a97ea20a9eeee64b55d39a2192992a274fc1a836ba3c23a3feebbd454d4423643ce80e2a9ac94fa54ca49f" := by
  decide

set_option maxRecDepth 8000 in
/-- The spec's golden test (spec §8): SHA-256 of the fixed password
concatenated with the fixed all-zero salt. -/
theorem sha256_golden_spec_vector :
    hashSHA256 goldenPassword goldenSalt
      = "23158217b910f0652fa81a5fef3721a458f65a5ea70e6f21a1b0c1a84cb5dce7" := by
  decide

set_option maxRecDepth 8000 in
/-- UTF-8 pin: SHA-256 over a password/salt pair containing 2- and 3-byte
UTF-8 characters matches the reference value. -/
theorem sha256_golden_utf8 :
    hashSHA256 "pässwörd–密码" "sälte"
      = "7d392dd2904dc563d4ab098b8cd41a674efd9c145e0edee8fc459b7949fb983c" := by
  decide


/-! ### Helper lemmas

Branch-unfolding equations for the two entry points, one per concrete tag, so
the claim proofs rewrite syntactically instead of re-running definitional
unfolding of the digest pipeline at every step. -/

/-- `hashPassword` at the `"MD5"` tag. -/
theorem hashPassword_MD5 (bcryptHash : String → Nat → String)
    (randomBytes : List Nat) (password : String) :
    hashPassword bcryptHash randomBytes password "MD5"
      = Except.ok ⟨hashMD5 password (generateSalt randomBytes),
          generateSalt randomBytes, "MD5"⟩ := rfl

/-- `hashPassword` at the `"SHA-1"` tag. -/
theorem hashPassword_SHA1 (bcryptHash : String → Nat → String)
    (randomBytes : List Nat) (password : String) :
    hashPassword bcryptHash randomBytes password "SHA-1"
      = Except.ok ⟨hashSHA1 password (generateSalt randomBytes),
          generateSalt randomBytes, "SHA-1"⟩ := rfl

/-- `hashPassword` at the `"SHA-256"` tag. -/
theorem hashPassword_SHA256 (bcryptHash : String → Nat → String)
    (randomBytes : List Nat) (password : String) :
    hashPassword bcryptHash randomBytes password "SHA-256"
      = Except.ok ⟨hashSHA256 password (generateSalt randomBytes),
          generateSalt randomBytes, "SHA-256"⟩ := rfl

/-- `hashPassword` at the `"SHA-512"` tag. -/
theorem hashPassword_SHA512 (bcryptHash : String → Nat → String)
    (randomBytes : List Nat) (password : String) :
    hashPassword bcryptHash randomBytes password "SHA-512"
      = Except.ok ⟨hashSHA512 password (generateSalt randomBytes),
          generateSalt randomBytes, "SHA-512"⟩ := rfl

/-- `hashPassword` at the `"bcrypt"` tag. -/
theorem hashPassword_bcrypt (bcryptHash : String → Nat → String)
    (randomBytes : List Nat) (password : String) :
    hashPassword bcryptHash randomBytes password "bcrypt"
      = Except.ok ⟨hashBcrypt bcryptHash password, "", "bcrypt"⟩ := rfl

/-- `verifyPassword` at the `"MD5"` tag. -/
theorem verifyPassword_MD5 (bcryptCompare : String → String → Bool)
    (password storedHash salt : String) :
    verifyPassword bcryptCompare password storedHash salt "MD5"
      = Except.ok (hashMD5 password salt == storedHash) := rfl

/-- `verifyPassword` at the `"SHA-1"` tag. -/
theorem verifyPassword_SHA1 (bcryptCompare : String → String → Bool)
    (password storedHash salt : String) :
    verifyPassword bcryptCompare password storedHash salt "SHA-1"
      = Except.ok (hashSHA1 password salt == storedHash) := rfl

/-- `verifyPassword` at the `"SHA-256"` tag. -/
theorem verifyPassword_SHA256 (bcryptCompare : String → String → Bool)
    (password storedHash salt : String) :
    verifyPassword bcryptCompare password storedHash salt "SHA-256"
      = Except.ok (hashSHA256 password salt == storedHash) := rfl

/-- `verifyPassword` at the `"SHA-512"` tag. -/
theorem verifyPassword_SHA512 (bcryptCompare : String → String → Bool)
    (password storedHash salt : String) :
    verifyPassword bcryptCompare password storedHash salt "SHA-512"
      = Except.ok (hashSHA512 password salt == storedHash) := rfl

/-- `verifyPassword` at the `"bcrypt"` tag delegates to `bcrypt.compare`. -/
theorem verifyPassword_bcrypt (bcryptCompare : String → String → Bool)
    (password storedHash salt : String) :
    verifyPassword bcryptCompare password storedHash salt "bcrypt"
      = Except.ok (bcryptCompare password storedHash) := rfl

/-- The spec-side digest for the `"MD5"` tag is SHA-256. -/
theorem specDigest_MD5 : specDigest "MD5" = sha256Digest := rfl

/-- The spec-side digest for the `"SHA-1"` tag. -/
theorem specDigest_SHA1 : specDigest "SHA-1" = sha1Digest := rfl

/-- The spec-side digest for the `"SHA-256"` tag. -/
theorem specDigest_SHA256 : specDigest "SHA-256" = sha256Digest := rfl

/-- The spec-side digest for the `"SHA-512"` tag. -/
theorem specDigest_SHA512 : specDigest "SHA-512" = sha512Digest := rfl

/-- The spec-side recomputation for the `"MD5"` tag is `hashMD5`. -/
theorem specHexDigest_MD5 (password salt : String) :
    specHexDigest "MD5" password salt = hashMD5 password salt := by
  simp only [specHexDigest, specDigest_MD5, hashMD5]

/-- The spec-side recomputation for the `"SHA-1"` tag is `hashSHA1`. -/
theorem specHexDigest_SHA1 (password salt : String) :
    specHexDigest "SHA-1" password salt = hashSHA1 password salt := by
  simp only [specHexDigest, specDigest_SHA1, hashSHA1]

/-- The spec-side recomputation for the `"SHA-256"` tag is `hashSHA256`. -/
theorem specHexDigest_SHA256 (password salt : String) :
    specHexDigest "SHA-256" password salt = hashSHA256 password salt := by
  simp only [specHexDigest, specDigest_SHA256, hashSHA256]

/-- The spec-side recomputation for the `"SHA-512"` tag is `hashSHA512`. -/
theorem specHexDigest_SHA512 (password salt : String) :
    specHexDigest "SHA-512" password salt = hashSHA512 password salt := by
  simp only [specHexDigest, specDigest_SHA512, hashSHA512]

/-- A successful boolean comparison result equals `Except.ok true` exactly
when the compared strings are equal. -/
theorem ok_beq_iff (x y : String) :
    (Except.ok (ε := String) (x == y) = Except.ok true) ↔ x = y := by
  constructor
  · intro h
    exact eq_of_beq (Except.ok.inj h)
  · intro h
    subst h
    rw [beq_self_eq_true]

/-- `data` of a string fold of appends: the accumulated characters followed by
the flattened characters of the list. -/
theorem data_foldl_append (l : List String) (acc : String) :
    (l.foldl (fun r s => r ++ s) acc).data
      = acc.data ++ (l.map String.data).flatten := by
  induction l generalizing acc with
  | nil => simp
  | cons x xs ih => simp [ih, String.data_append]

/-- `data` of `String.join`: the flattened characters of the parts. -/
theorem data_join (l : List String) :
    (String.join l).data = (l.map String.data).flatten := by
  simp [String.join, data_foldl_append]

/-- Every character of `byteToHex b` with `b < 256` is a lowercase hex
digit. -/
theorem byteToHex_chars (b : Nat) (hb : b < 256) :
    ∀ c ∈ (byteToHex b).data, c ∈ "0123456789abcdef".data := by
  have hdig : ∀ n, n < 16 → hexDigitChar n ∈ "0123456789abcdef".data := by decide
  have h1 : b / 16 < 16 := Nat.div_lt_of_lt_mul (by omega)
  have h2 : b % 16 < 16 := Nat.mod_lt _ (by omega)
  intro c hc
  have hc' : c = hexDigitChar (b / 16) ∨ c = hexDigitChar (b % 16) := by
    simpa [byteToHex] using hc
  rcases hc' with rfl | rfl
  · exact hdig _ h1
  · exact hdig _ h2

/-- The characters of a generated salt: the two hex digits of each byte, in
byte order. -/
theorem generateSalt_data (array : List Nat) :
    (generateSalt array).data
      = (array.map (fun b => (byteToHex b).data)).flatten := by
  rw [generateSalt, data_join, List.map_map]
  rfl

/-- The flattened hex characters of a byte list have twice its length. -/
theorem flatten_byteToHex_length (array : List Nat) :
    ((array.map (fun b => (byteToHex b).data)).flatten).length
      = 2 * array.length := by
  induction array with
  | nil => rfl
  | cons b bs ih =>
    simp only [List.map_cons, List.flatten_cons, List.length_append,
      List.length_cons]
    rw [ih]
    have hb : (byteToHex b).data.length = 2 := rfl
    rw [hb]
    omega

/-- `hashMD5` and `hashSHA256` have the same body: the source's `hashMD5`
calls `crypto.subtle.digest('SHA-256', …)`. -/
theorem hashMD5_eq_hashSHA256 (password salt : String) :
    hashMD5 password salt = hashSHA256 password salt := rfl

/-! ### The claims -/

/-- Claim C1: for every password and every non-self-salting algorithm tag in
MD5, SHA-1, SHA-256, SHA-512, hashing and then verifying with the resulting
record succeeds: whatever salt bytes the random source supplied and whatever
the bcrypt library does, if `hashPassword` returns the record `r` then
`verifyPassword password r.hashedPassword r.salt r.algorithm` returns
`true`. -/
theorem hash_then_verify_roundtrip
    (bcryptHash : String → Nat → String) (bcryptCompare : String → String → Bool)
    (randomBytes : List Nat) (password algorithm : String) (r : HashResult)
    (halg : algorithm ∈ nonSelfSalting)
    (hhash : hashPassword bcryptHash randomBytes password algorithm = Except.ok r) :
    verifyPassword bcryptCompare password r.hashedPassword r.salt r.algorithm
      = Except.ok true := by
  simp only [nonSelfSalting, List.mem_cons, List.not_mem_nil, or_false] at halg
  rcases halg with rfl | rfl | rfl | rfl
  · rw [hashPassword_MD5] at hhash
    obtain rfl := (Except.ok.inj hhash).symm
    dsimp only
    rw [verifyPassword_MD5, beq_self_eq_true]
  · rw [hashPassword_SHA1] at hhash
    obtain rfl := (Except.ok.inj hhash).symm
    dsimp only
    rw [verifyPassword_SHA1, beq_self_eq_true]
  · rw [hashPassword_SHA256] at hhash
    obtain rfl := (Except.ok.inj hhash).symm
    dsimp only
    rw [verifyPassword_SHA256, beq_self_eq_true]
  · rw [hashPassword_SHA512] at hhash
    obtain rfl := (Except.ok.inj hhash).symm
    dsimp only
    rw [verifyPassword_SHA512, beq_self_eq_true]

/-- Witness for C1: the round-trip at password `"pw"`, tag `"MD5"`, and the
one-byte random salt `[0]`, with a concrete bcrypt library. -/
theorem hash_then_verify_roundtrip_witness :
    ("MD5" ∈ nonSelfSalting) ∧
      hashPassword bcryptHashW [0] "pw" "MD5" = Except.ok sampleRecordMD5 ∧
      verifyPassword bcryptCompareW "pw" sampleRecordMD5.hashedPassword
        sampleRecordMD5.salt sampleRecordMD5.algorithm = Except.ok true :=
  ⟨by decide, hashPassword_MD5 bcryptHashW [0] "pw",
    hash_then_verify_roundtrip bcryptHashW bcryptCompareW [0] "pw" "MD5"
      sampleRecordMD5 (by decide) (hashPassword_MD5 bcryptHashW [0] "pw")⟩

/-- Claim C2: for every non-self-salting tag and all strings, `verifyPassword`
returns `true` exactly when the lowercase-hex encoding of the tag's digest
over the UTF-8 bytes of `password ++ salt` equals the stored hash as a
string. -/
theorem verify_recomputes_and_compares
    (bcryptCompare : String → String → Bool)
    (password storedHash salt algorithm : String)
    (halg : algorithm ∈ nonSelfSalting) :
    verifyPassword bcryptCompare password storedHash salt algorithm
        = Except.ok true
      ↔ specHexDigest algorithm password salt = storedHash := by
  simp only [nonSelfSalting, List.mem_cons, List.not_mem_nil, or_false] at halg
  rcases halg with rfl | rfl | rfl | rfl
  · rw [verifyPassword_MD5, specHexDigest_MD5]
    exact ok_beq_iff _ _
  · rw [verifyPassword_SHA1, specHexDigest_SHA1]
    exact ok_beq_iff _ _
  · rw [verifyPassword_SHA256, specHexDigest_SHA256]
    exact ok_beq_iff _ _
  · rw [verifyPassword_SHA512, specHexDigest_SHA512]
    exact ok_beq_iff _ _

/-- Witness for C2: at tag `"SHA-1"`, password `"a"`, empty salt, and the
matching stored hash, both sides of the equivalence hold. -/
theorem verify_recomputes_and_compares_witness :
    ("SHA-1" ∈ nonSelfSalting) ∧
      (verifyPassword bcryptCompareW "a" (hashSHA1 "a" "") "" "SHA-1"
          = Except.ok true
        ↔ specHexDigest "SHA-1" "a" "" = hashSHA1 "a" "") :=
  ⟨by decide,
    verify_recomputes_and_compares bcryptCompareW "a" (hashSHA1 "a" "") ""
      "SHA-1" (by decide)⟩

set_option maxRecDepth 8000 in
set_option maxHeartbeats 1600000 in
/-- Claim C3: for every non-self-salting tag, `hashPassword` obtains its salt
from `generateSalt` applied to the supplied random bytes, forms the digest
message as `password ++ salt` (salt appended), hex-encodes the tag's digest
of the UTF-8 bytes of that concatenation, and returns the record carrying
that salt and the input tag; moreover, for the spec's fixed non-trivial
password/salt pair, hashing `salt ++ password` does not reproduce the hash
of `password ++ salt` (shown for each of the three distinct digests in
use). -/
theorem hash_message_formation :
    (∀ (bcryptHash : String → Nat → String) (randomBytes : List Nat)
        (password algorithm : String), algorithm ∈ nonSelfSalting →
        hashPassword bcryptHash randomBytes password algorithm
          = Except.ok
              ⟨specHexDigest algorithm password (generateSalt randomBytes),
                generateSalt randomBytes, algorithm⟩)
      ∧ hashSHA256 goldenSalt goldenPassword ≠ hashSHA256 goldenPassword goldenSalt
      ∧ hashSHA1 goldenSalt goldenPassword ≠ hashSHA1 goldenPassword goldenSalt
      ∧ hashSHA512 goldenSalt goldenPassword ≠ hashSHA512 goldenPassword goldenSalt := by
  refine ⟨?_, by decide, by decide, by decide⟩
  intro bcryptHash randomBytes password algorithm halg
  simp only [nonSelfSalting, List.mem_cons, List.not_mem_nil, or_false] at halg
  rcases halg with rfl | rfl | rfl | rfl
  · rw [hashPassword_MD5, specHexDigest_MD5]
  · rw [hashPassword_SHA1, specHexDigest_SHA1]
  · rw [hashPassword_SHA256, specHexDigest_SHA256]
  · rw [hashPassword_SHA512, specHexDigest_SHA512]

/-- Witness for C3: the record formation at tag `"SHA-512"`, password `"pw"`,
and random bytes `[7, 255]`. -/
theorem hash_message_formation_witness :
    ("SHA-512" ∈ nonSelfSalting) ∧
      hashPassword bcryptHashW [7, 255] "pw" "SHA-512"
        = Except.ok
            ⟨specHexDigest "SHA-512" "pw" (generateSalt [7, 255]),
              generateSalt [7, 255], "SHA-512"⟩ :=
  ⟨by decide,
    hash_message_formation.1 bcryptHashW [7, 255] "pw" "SHA-512" (by decide)⟩

/-- Claim C4: `generateSalt` encodes each of the supplied random bytes as two
lowercase hexadecimal digits, concatenated in byte order, so the salt string
has length exactly `2 * lengthBytes` where `lengthBytes` is the number of
random bytes (the size of the `Uint8Array`, default 32). -/
theorem generateSalt_hex_encoding (array : List Nat) (lengthBytes : Nat)
    (hlen : array.length = lengthBytes) (hbytes : ∀ b ∈ array, b < 256) :
    (generateSalt array).length = 2 * lengthBytes
      ∧ (generateSalt array).data
          = (array.map (fun b => (byteToHex b).data)).flatten
      ∧ ∀ c ∈ (generateSalt array).data, c ∈ "0123456789abcdef".data := by
  subst hlen
  refine ⟨?_, generateSalt_data array, ?_⟩
  · show (generateSalt array).data.length = 2 * array.length
    rw [generateSalt_data]
    exact flatten_byteToHex_length array
  · intro c hc
    rw [generateSalt_data, List.mem_flatten] at hc
    obtain ⟨cs, hcs, hc⟩ := hc
    obtain ⟨b, hb, rfl⟩ := List.mem_map.mp hcs
    exact byteToHex_chars b (hbytes b hb) c hc

/-- Witness for C4: 32 random bytes (here `0..31`) give a 64-character
lowercase-hex salt. -/
theorem generateSalt_hex_encoding_witness :
    (List.range 32).length = 32 ∧ (∀ b ∈ List.range 32, b < 256) ∧
      ((generateSalt (List.range 32)).length = 64
        ∧ (generateSalt (List.range 32)).data
            = ((List.range 32).map (fun b => (byteToHex b).data)).flatten
        ∧ ∀ c ∈ (generateSalt (List.range 32)).data,
            c ∈ "0123456789abcdef".data) :=
  ⟨by decide, by decide,
    generateSalt_hex_encoding (List.range 32) 32 (by decide) (by decide)⟩

/-- Claim C5: the digest computed under the `MD5` tag is SHA-256: `hashMD5`
and `hashSHA256` agree on every password/salt pair (MD5 itself is never
computed by the service). -/
theorem md5_tag_computes_sha256 :
    ∀ password salt : String, hashMD5 password salt = hashSHA256 password salt :=
  fun password salt => hashMD5_eq_hashSHA256 password salt

/-- Claim C6: for every password, `hashPassword` under the `bcrypt` tag calls
the self-salting bcrypt scheme with fixed cost factor 10, returns a record
whose salt field is the empty string, and — for any bcrypt library whose
`compare` accepts what its `hash` produced at cost 10 — verifying that record
with the same password returns `true`. -/
theorem bcrypt_contract
    (bcryptHash : String → Nat → String) (bcryptCompare : String → String → Bool)
    (randomBytes : List Nat) (password : String)
    (hlib : ∀ q : String, bcryptCompare q (bcryptHash q 10) = true) :
    hashPassword bcryptHash randomBytes password "bcrypt"
        = Except.ok ⟨hashBcrypt bcryptHash password, "", "bcrypt"⟩
      ∧ hashBcrypt bcryptHash password = bcryptHash password 10
      ∧ verifyPassword bcryptCompare password (hashBcrypt bcryptHash password)
          "" "bcrypt" = Except.ok true := by
  refine ⟨hashPassword_bcrypt bcryptHash randomBytes password, rfl, ?_⟩
  rw [verifyPassword_bcrypt]
  show Except.ok (bcryptCompare password (bcryptHash password 10)) = Except.ok true
  rw [hlib]

/-- Witness for C6: a concrete bcrypt library satisfying the round-trip
contract, applied at password `"pw"`. -/
theorem bcrypt_contract_witness :
    (∀ q : String, bcryptCompareW q (bcryptHashW q 10) = true) ∧
      (hashPassword bcryptHashW [] "pw" "bcrypt"
          = Except.ok ⟨hashBcrypt bcryptHashW "pw", "", "bcrypt"⟩
        ∧ hashBcrypt bcryptHashW "pw" = bcryptHashW "pw" 10
        ∧ verifyPassword bcryptCompareW "pw" (hashBcrypt bcryptHashW "pw")
            "" "bcrypt" = Except.ok true) :=
  ⟨fun q => by simp [bcryptCompareW],
    bcrypt_contract bcryptHashW bcryptCompareW [] "pw"
      (fun q => by simp [bcryptCompareW])⟩

/-- Claim C7: for every algorithm tag outside the closed set
MD5, SHA-1, SHA-256, SHA-512, bcrypt (e.g. `"ROT13"`), both `hashPassword`
and `verifyPassword` fail with the unsupported-algorithm error, producing no
record and no boolean. -/
theorem unsupported_algorithm_error
    (bcryptHash : String → Nat → String) (bcryptCompare : String → String → Bool)
    (randomBytes : List Nat) (password storedHash salt algorithm : String)
    (halg : algorithm ∉ supportedAlgorithms) :
    hashPassword bcryptHash randomBytes password algorithm
        = Except.error ("Unsupported algorithm: " ++ algorithm)
      ∧ verifyPassword bcryptCompare password storedHash salt algorithm
        = Except.error ("Unsupported algorithm: " ++ algorithm) := by
  simp only [supportedAlgorithms, List.mem_cons, List.not_mem_nil, or_false,
    not_or] at halg
  obtain ⟨h1, h2, h3, h4, h5⟩ := halg
  have b1 : (algorithm == "MD5") = false := beq_eq_false_iff_ne.mpr h1
  have b2 : (algorithm == "SHA-1") = false := beq_eq_false_iff_ne.mpr h2
  have b3 : (algorithm == "SHA-256") = false := beq_eq_false_iff_ne.mpr h3
  have b4 : (algorithm == "SHA-512") = false := beq_eq_false_iff_ne.mpr h4
  have b5 : (algorithm == "bcrypt") = false := beq_eq_false_iff_ne.mpr h5
  constructor
  · simp only [hashPassword, b1, b2, b3, b4, b5, Bool.false_eq_true, if_false]
    rfl
  · simp only [verifyPassword, b1, b2, b3, b4, b5, Bool.false_eq_true, if_false]
    rfl

/-- Witness for C7: the tag `"ROT13"` is rejected by both operations. -/
theorem unsupported_algorithm_error_witness :
    ("ROT13" ∉ supportedAlgorithms) ∧
      (hashPassword bcryptHashW [0] "pw" "ROT13"
          = Except.error ("Unsupported algorithm: " ++ "ROT13")
        ∧ verifyPassword bcryptCompareW "pw" "h" "s" "ROT13"
          = Except.error ("Unsupported algorithm: " ++ "ROT13")) :=
  ⟨by decide,
    unsupported_algorithm_error bcryptHashW bcryptCompareW [0] "pw" "h" "s"
      "ROT13" (by decide)⟩

/-- Claim C9: under the `bcrypt` tag, the salt argument of `verifyPassword`
is ignored: for any bcrypt library, any password, any stored hash, and any
two salt strings, the verification result is the same. -/
theorem bcrypt_verify_ignores_salt
    (bcryptCompare : String → String → Bool)
    (password storedHash salt1 salt2 : String) :
    verifyPassword bcryptCompare password storedHash salt1 "bcrypt"
      = verifyPassword bcryptCompare password storedHash salt2 "bcrypt" := by
  rw [verifyPassword_bcrypt bcryptCompare password storedHash salt1,
    verifyPassword_bcrypt bcryptCompare password storedHash salt2]

/-- Claim C10: the `MD5` and `SHA-256` tags are interchangeable on verify:
`verifyPassword` returns the same result under both tags on all inputs, and a
record hashed under either tag verifies successfully after its tag is
rewritten to the other, because both dispatch to the same SHA-256
computation. -/
theorem md5_sha256_tags_interchangeable :
    (∀ (bcryptCompare : String → String → Bool)
        (password storedHash salt : String),
        verifyPassword bcryptCompare password storedHash salt "MD5"
          = verifyPassword bcryptCompare password storedHash salt "SHA-256")
      ∧ (∀ (bcryptHash : String → Nat → String)
          (bcryptCompare : String → String → Bool)
          (randomBytes : List Nat) (password : String) (r : HashResult),
          hashPassword bcryptHash randomBytes password "MD5" = Except.ok r →
          verifyPassword bcryptCompare password r.hashedPassword r.salt
            "SHA-256" = Except.ok true)
      ∧ (∀ (bcryptHash : String → Nat → String)
          (bcryptCompare : String → String → Bool)
          (randomBytes : List Nat) (password : String) (r : HashResult),
          hashPassword bcryptHash randomBytes password "SHA-256" = Except.ok r →
          verifyPassword bcryptCompare password r.hashedPassword r.salt
            "MD5" = Except.ok true) := by
  refine ⟨?_, ?_, ?_⟩
  · intro bcryptCompare password storedHash salt
    rw [verifyPassword_MD5, verifyPassword_SHA256,
      hashMD5_eq_hashSHA256 password salt]
  · intro bcryptHash bcryptCompare randomBytes password r hhash
    rw [hashPassword_MD5] at hhash
    obtain rfl := (Except.ok.inj hhash).symm
    dsimp only
    rw [verifyPassword_SHA256, hashMD5_eq_hashSHA256 password
      (generateSalt randomBytes), beq_self_eq_true]
  · intro bcryptHash bcryptCompare randomBytes password r hhash
    rw [hashPassword_SHA256] at hhash
    obtain rfl := (Except.ok.inj hhash).symm
    dsimp only
    rw [verifyPassword_MD5, hashMD5_eq_hashSHA256 password
      (generateSalt randomBytes), beq_self_eq_true]

/-- Witness for C10: a record hashed under the `MD5` tag at password `"pw"`
and random byte `[0]` verifies under the `SHA-256` tag. -/
theorem md5_sha256_tags_interchangeable_witness :
    verifyPassword bcryptCompareW "pw" "x" "y" "MD5"
        = verifyPassword bcryptCompareW "pw" "x" "y" "SHA-256"
      ∧ hashPassword bcryptHashW [0] "pw" "MD5" = Except.ok sampleRecordMD5
      ∧ verifyPassword bcryptCompareW "pw" sampleRecordMD5.hashedPassword
          sampleRecordMD5.salt "SHA-256" = Except.ok true :=
  ⟨md5_sha256_tags_interchangeable.1 bcryptCompareW "pw" "x" "y",
    hashPassword_MD5 bcryptHashW [0] "pw",
    md5_sha256_tags_interchangeable.2.1 bcryptHashW bcryptCompareW [0] "pw"
      sampleRecordMD5 (hashPassword_MD5 bcryptHashW [0] "pw")⟩

end HashSvc
